import Mathlib

/-!
Shallow embedding of `src/face_service.py` (the verification core of the
Proctor exam-proctoring service).

Modelling conventions:
* Python floats are modelled as exact rationals (`ℚ`); the numeric square
  root computed by `np.sqrt` inside `compare_faces` is supplied by the
  environment as an opaque numeric routine (`sqrtq`), since no control
  decision in the claims depends on its value.  In `detect_airpods_headsets`
  the source tests `np.sqrt(d) < 70`; we embed the equivalent exact test
  `d < 70^2` on the squared distance.
* External detectors (MediaPipe FaceMesh, YOLO, cv2 image decoding) are
  consumed through oracle values recorded in an environment structure: each
  oracle is the value the detector call would return for the frame at hand,
  or `Except.error e` when the call would raise.  Python exception
  propagation is modelled with `Except`: a function without a `try/except`
  propagates the error, a function with one maps it to its fallback value.
* `request.form.get(k)` is `Option String` (`none` when the field is
  absent); Python truthiness of such a value is `isFalsy`.
* The module-level `violation_counts = defaultdict(int)` ledger is a total
  map `String → Nat` threaded through every endpoint.
* HTTP endpoint results are `Resp`: a 200 body, a `("ERROR", 400)` client
  error, or an unhandled Python exception surfacing as a transport failure.
-/

/-- A MediaPipe normalized landmark: `landmark.x`, `landmark.y`. -/
structure Landmark where
  x : ℚ
  y : ℚ
deriving DecidableEq, Repr

/-- Result of a `FaceMesh.process` call: the list of detected faces
(`results.multi_face_landmarks`, empty when the attribute is `None`),
or an exception raised by the detector. -/
abbrev MeshResult := Except String (List (List Landmark))

/-- One YOLO detection, already resolved through `model.names[cls]`:
the class label and its confidence (`box.conf[0]`). -/
structure Detection where
  label : String
  conf : ℚ
deriving DecidableEq, Repr

/-- An HTTP-level response of the Flask service: a 200 body string, an
explicit `("ERROR", 400)` return, or an uncaught Python exception that
surfaces to the client as a transport-level failure (HTTP 500). -/
inductive Resp where
  | ok (body : String)
  | clientError (body : String) (code : Nat)
  | serverError (msg : String)
deriving DecidableEq, Repr

/-- The process-wide `violation_counts = defaultdict(int)` ledger:
a total map from username to count, default 0. -/
abbrev Counts := String → Nat

/-- The ledger at process startup: empty, so every user reads 0. -/
def zeroCounts : Counts := fun _ => 0

/-- `MAX_VIOLATIONS = 10` (line 21). -/
def MAX_VIOLATIONS : Nat := 10

/-- `LEFT_IRIS_CENTER = 473` (line 30). -/
def LEFT_IRIS_CENTER : Nat := 473

/-- `RIGHT_IRIS_CENTER = 468` (line 31). -/
def RIGHT_IRIS_CENTER : Nat := 468

/-- `HORIZONTAL_THRESHOLD = 0.35` (line 34). -/
def HORIZONTAL_THRESHOLD : ℚ := 35/100

/-- The `PROHIBITED_ITEMS` dict (lines 46–54): label → category. -/
def PROHIBITED_ITEMS (label : String) : Option String :=
  if label = "cell phone" then some "MOBILE_PHONE"
  else if label = "book" then some "BOOK"
  else if label = "laptop" then some "LAPTOP"
  else if label = "mouse" then some "MOUSE"
  else if label = "keyboard" then some "KEYBOARD"
  else if label = "remote" then some "REMOTE"
  else if label = "cup" then some "CUP"
  else none

/-- Python truthiness test used by `if not field:` on a form value:
`None` and the empty string are falsy. -/
def isFalsy : Option String → Bool
  | none => true
  | some s => s = ""

/-- Helper for `pySplitComma`: walk the characters, cutting at each
comma, accumulating the current piece in reverse. -/
def pySplitAux : List Char → List Char → List (List Char)
  | [], acc => [acc.reverse]
  | c :: rest, acc =>
    if c = ',' then acc.reverse :: pySplitAux rest []
    else pySplitAux rest (c :: acc)

/-- Python's `s.split(",")`: cut at every comma, keeping empty pieces,
so a string with `k` commas yields `k + 1` parts. -/
def pySplitComma (s : String) : List String :=
  (pySplitAux s.data []).map List.asString

/-- Python's `s.lower()` restricted to ASCII (all labels in the
`PROHIBITED_ITEMS` table and in COCO class names are ASCII). -/
def pyLower (s : String) : String :=
  ⟨s.data.map Char.toLower⟩

/-- `save_image_from_base64` (lines 59–68): split the data URL on `","`;
any shape other than exactly two parts yields `None`.  The base64 decode
and the timestamped file write are abstracted away; the returned storage
handle is identified with the payload itself. -/
def save_image_from_base64 (data_url : String) : Option String :=
  if (pySplitComma data_url).length = 2 then some data_url else none

/-- Inputs consumed by `compare_faces` (lines 70–132) for one call:
the two `cv2.imread` results (`none` = unreadable file), the maximum
template-matching score `max_val` from `cv2.minMaxLoc`, the numeric
square-root routine standing in for `np.sqrt`, and the FaceMesh results
for the reference and current frames (`max_num_faces=1`). -/
structure CompareEnv where
  ref_img : Option Unit
  curr_img : Option Unit
  max_val : ℚ
  sqrtq : ℚ → ℚ
  ref_faces : List (List Landmark)
  curr_faces : List (List Landmark)

/-- `key_indices = [1, 33, 263, 61, 291, 13, 14]` (line 116). -/
def key_indices : List Nat := [1, 33, 263, 61, 291, 13, 14]

/-- `compare_faces` (lines 70–132).  Unreadable reference or current frame
returns `False`; template score `max_val >= 0.7` returns `True`; otherwise
the 7-point landmark comparison runs, declaring a match iff the mean
`np.sqrt`-distance over the in-range key indices is `< 0.1`; if either
frame yields no face, or no key index is in range, the function falls
through to `return False`. -/
def compare_faces (env : CompareEnv) : Bool :=
  match env.ref_img, env.curr_img with
  | none, _ => false
  | _, none => false
  | some _, some _ =>
    if env.max_val ≥ 7/10 then true
    else
      match env.ref_faces, env.curr_faces with
      | ref_landmarks :: _, curr_landmarks :: _ =>
        let dists := key_indices.filterMap (fun idx =>
          match ref_landmarks[idx]?, curr_landmarks[idx]? with
          | some rp, some cp =>
            some (env.sqrtq ((rp.x - cp.x)^2 + (rp.y - cp.y)^2))
          | _, _ => none)
        if dists.length > 0 then
          decide (dists.foldl (· + ·) 0 / (dists.length : ℚ) < 1/10)
        else false
      | _, _ => false

/-- `get_gaze_ratio` (lines 134–151): look up the two eye corners and the
iris centre; any out-of-range index raises `IndexError`, caught by the
`except` and mapped to 0.5; a zero eye width also yields 0.5; otherwise
the horizontal ratio `(iris.x - left.x) / width`. -/
def get_gaze_ratio (landmarks : List Landmark) (i0 i1 iris : Nat) : ℚ :=
  match landmarks[i0]?, landmarks[i1]?, landmarks[iris]? with
  | some eye_left_corner, some eye_right_corner, some irisPt =>
    let eye_width := eye_right_corner.x - eye_left_corner.x
    if eye_width = 0 then 1/2
    else (irisPt.x - eye_left_corner.x) / eye_width
  | _, _, _ => 1/2

/-- The two-eye average gaze ratio computed inline in `detect_gaze`
(lines 168–176): left eye corners `[33, 133]` with iris 473, right eye
corners `[362, 263]` with iris 468, averaged. -/
def avgGaze (landmarks : List Landmark) : ℚ :=
  (get_gaze_ratio landmarks 33 133 LEFT_IRIS_CENTER
    + get_gaze_ratio landmarks 362 263 RIGHT_IRIS_CENTER) / 2

/-- `detect_gaze` (lines 153–185).  There is no `try/except` here: an
exception from the FaceMesh detector propagates to the caller.  No face
detected returns `True` (gaze OK); otherwise the frame violates
(`False`) iff the average ratio is `< 0.35` or `> 1 - 0.35`. -/
def detect_gaze (mesh : MeshResult) : Except String Bool :=
  match mesh with
  | .error e => .error e
  | .ok [] => .ok true
  | .ok (landmarks :: _) =>
    if avgGaze landmarks < HORIZONTAL_THRESHOLD
        ∨ 1 - HORIZONTAL_THRESHOLD < avgGaze landmarks then
      .ok false
    else
      .ok true

/-- `detect_multiple_faces` (lines 187–205): no `try/except`, so a
detector exception propagates; otherwise `True` iff more than one face. -/
def detect_multiple_faces (mesh : MeshResult) : Except String Bool :=
  match mesh with
  | .error e => .error e
  | .ok faces => .ok (decide (1 < faces.length))

/-- `detect_face` (lines 309–327): `True` iff `multi_face_landmarks`
is truthy (at least one face); detector exceptions propagate. -/
def detect_face (mesh : MeshResult) : Except String Bool :=
  match mesh with
  | .error e => .error e
  | .ok faces => .ok (!faces.isEmpty)

/-- One cv2 contour as consumed by `detect_airpods_headsets`
(lines 288–298): its `cv2.contourArea` and the moments used for the
centroid. -/
structure Contour where
  area : ℚ
  m00 : ℚ
  m10 : ℚ
  m01 : ℚ
deriving DecidableEq, Repr

/-- Inputs to the body of `detect_airpods_headsets` (lines 246–304): the
contours extracted from the combined white/black HSV mask, the FaceMesh
result for the frame, and the frame dimensions `w`, `h`. -/
structure HeurInput where
  contours : List Contour
  faces : List (List Landmark)
  w : ℚ
  h : ℚ

/-- Python `int(...)` truncation toward zero on a rational. -/
def pyInt (q : ℚ) : Int :=
  if 0 ≤ q then ⌊q⌋ else ⌈q⌉

/-- The contour loop of `detect_airpods_headsets` (lines 288–302): keep
contours with `50 < area < 500` and nonzero `m00`, take the integer
centroid, and report an ear-worn accessory when its distance to either
ear is `< 70`; `np.sqrt(d) < 70` is embedded as the equivalent exact
test `d < 70^2` on the squared distance. -/
def airpodsScan (contours : List Contour) (lex ley rex rey : Int) : Option String :=
  match contours with
  | [] => none
  | c :: rest =>
    if 50 < c.area ∧ c.area < 500 then
      if c.m00 ≠ 0 then
        let cx := pyInt (c.m10 / c.m00)
        let cy := pyInt (c.m01 / c.m00)
        if (cx - lex)^2 + (cy - ley)^2 < 70^2
            ∨ (cx - rex)^2 + (cy - rey)^2 < 70^2 then
          some "AIRPODS_OR_HEADSET"
        else airpodsScan rest lex ley rex rey
      else airpodsScan rest lex ley rex rey
    else airpodsScan rest lex ley rex rey

/-- `detect_airpods_headsets` (lines 242–307).  The whole body is wrapped
in `try/except` returning `None`: an exception anywhere (mask extraction,
FaceMesh, the landmark lookups for the ears) is caught and treated as
nothing detected.  No face detected also returns `None`.  Ear positions
come from landmarks 93 and 323 scaled to pixels with `int(...)`. -/
def detect_airpods_headsets (input : Except String HeurInput) : Option String :=
  match input with
  | .error _ => none
  | .ok inp =>
    match inp.faces with
    | [] => none
    | landmarks :: _ =>
      match landmarks[93]?, landmarks[323]? with
      | some l93, some l323 =>
        airpodsScan inp.contours
          (pyInt (l93.x * inp.w)) (pyInt (l93.y * inp.h))
          (pyInt (l323.x * inp.w)) (pyInt (l323.y * inp.h))
      | _, _ => none

/-- The YOLO result loop of `detect_prohibited_items` (lines 221–233):
first detection, in the detector's native order, whose lowercased label
is in `PROHIBITED_ITEMS` with confidence strictly above 0.5. -/
def findProhibited : List Detection → Option String
  | [] => none
  | d :: rest =>
    match PROHIBITED_ITEMS (pyLower d.label) with
    | some cat => if 1/2 < d.conf then some cat else findProhibited rest
    | none => findProhibited rest

/-- `detect_prohibited_items` (lines 207–240).  `model is None` returns
`None`; otherwise the YOLO call and both detection stages run inside
`try/except`, so a detector exception is caught and treated as nothing
detected; with no table match the airpods/headset heuristic runs. -/
def detect_prohibited_items (modelLoaded : Bool)
    (yolo : Except String (List Detection))
    (heur : Except String HeurInput) : Option String :=
  if modelLoaded then
    match yolo with
    | .error _ => none
    | .ok dets =>
      match findProhibited dets with
      | some cat => some cat
      | none => detect_airpods_headsets heur
  else none

/-- `violation_counts[username] += 1` on the defaultdict (e.g. line 392). -/
def bump (counts : Counts) (u : String) : Counts :=
  fun v => if v = u then counts v + 1 else counts v

/-- The shared ledger-and-respond pattern (lines 392–397, 402–406,
411–415, 428–434, 441–447, 454–460): increment the user's counter, read
the new count, answer `MAX_VIOLATIONS` once it has reached the threshold
and otherwise the violation signal carrying the count. -/
def violationResponse (tag : String) (counts : Counts) (u : String) : Resp × Counts :=
  let counts' := bump counts u
  let c := counts' u
  if MAX_VIOLATIONS ≤ c then (Resp.ok "MAX_VIOLATIONS", counts')
  else (Resp.ok (tag ++ toString c), counts')

/-- The form fields and per-frame detector oracles of one `capture` call
(lines 356–419).  `meshMulti` is the FaceMesh result consumed by
`detect_multiple_faces`, `meshGaze` the one consumed by `detect_gaze`,
`yolo`/`heur` feed `detect_prohibited_items`, and `cmp` carries the
inputs of `compare_faces` against the supplied reference. -/
structure CaptureEnv where
  img_data : Option String
  username : Option String
  noise_violation : Option String
  reference_face_path : Option String
  meshMulti : MeshResult
  cmp : CompareEnv
  modelLoaded : Bool
  yolo : Except String (List Detection)
  heur : Except String HeurInput
  meshGaze : MeshResult

/-- `capture` (lines 356–419).  Missing/empty `image` or `username`
returns `("ERROR", 400)`.  A malformed payload makes
`save_image_from_base64` return `None`, and the unguarded
`cv2.imread(curr_path)` then raises `TypeError`, which surfaces as a
transport failure.  With no `reference_face` field, only the multi-face
check runs and the ledger is untouched.  Otherwise the checks run in
order — multi-face, identity, prohibited item, gaze, client noise flag —
short-circuiting on the first non-OK result; only the last three touch
the ledger. -/
def capture (env : CaptureEnv) (counts : Counts) : Resp × Counts :=
  if isFalsy env.img_data || isFalsy env.username then
    (Resp.clientError "ERROR" 400, counts)
  else
    match save_image_from_base64 (env.img_data.getD "") with
    | none => (Resp.serverError "TypeError: cv2.imread(None)", counts)
    | some _curr_path =>
      match env.reference_face_path with
      | none =>
        match detect_multiple_faces env.meshMulti with
        | .error e => (Resp.serverError e, counts)
        | .ok true => (Resp.ok "MULTIPLE_FACES", counts)
        | .ok false => (Resp.ok "OK", counts)
      | some _ref =>
        match detect_multiple_faces env.meshMulti with
        | .error e => (Resp.serverError e, counts)
        | .ok true => (Resp.ok "MULTIPLE_FACES", counts)
        | .ok false =>
          if compare_faces env.cmp = false then
            (Resp.ok "FACE_MISMATCH", counts)
          else
            match detect_prohibited_items env.modelLoaded env.yolo env.heur with
            | some item =>
              violationResponse ("VIOLATION:PROHIBITED_ITEM:" ++ item ++ ":")
                counts (env.username.getD "")
            | none =>
              match detect_gaze env.meshGaze with
              | .error e => (Resp.serverError e, counts)
              | .ok false =>
                violationResponse "VIOLATION:GAZE_VIOLATION:"
                  counts (env.username.getD "")
              | .ok true =>
                if env.noise_violation = some "true" then
                  violationResponse "VIOLATION:NOISE_VIOLATION:"
                    counts (env.username.getD "")
                else
                  (Resp.ok "OK", counts)

/-- The form fields and detector oracles of one `validate_face` call
(lines 329–354): `path_exists` is the `os.path.exists` oracle. -/
structure ValidateEnv where
  img_data : Option String
  reference_face_path : Option String
  path_exists : String → Bool
  meshFace : MeshResult
  cmp : CompareEnv

/-- `validate_face` (lines 329–354).  Missing/empty `image` returns
`("ERROR", 400)`; a malformed payload raises at `cv2.imread(None)`.
With a face present, identity comparison runs only when the
`reference_face` field is truthy and names an existing path; otherwise
the endpoint answers `FACE_DETECTED`.  The ledger is never touched. -/
def validate_face (env : ValidateEnv) (counts : Counts) : Resp × Counts :=
  if isFalsy env.img_data then
    (Resp.clientError "ERROR" 400, counts)
  else
    match save_image_from_base64 (env.img_data.getD "") with
    | none => (Resp.serverError "TypeError: cv2.imread(None)", counts)
    | some _curr_path =>
      match detect_face env.meshFace with
      | .error e => (Resp.serverError e, counts)
      | .ok false => (Resp.ok "NO_FACE_DETECTED", counts)
      | .ok true =>
        match env.reference_face_path with
        | some r =>
          if r ≠ "" ∧ env.path_exists r then
            if compare_faces env.cmp then (Resp.ok "FACE_MATCH", counts)
            else (Resp.ok "NO_FACE_MATCH", counts)
          else (Resp.ok "FACE_DETECTED", counts)
        | none => (Resp.ok "FACE_DETECTED", counts)

/-- `fullscreen_violation` (lines 423–434): `if not username` answers
`("ERROR", 400)`, otherwise the shared ledger pattern. -/
def fullscreen_violation (username : Option String) (counts : Counts) : Resp × Counts :=
  if isFalsy username then (Resp.clientError "ERROR" 400, counts)
  else violationResponse "VIOLATION:FULLSCREEN:" counts (username.getD "")

/-- `tab_change_violation` (lines 436–447). -/
def tab_change_violation (username : Option String) (counts : Counts) : Resp × Counts :=
  if isFalsy username then (Resp.clientError "ERROR" 400, counts)
  else violationResponse "VIOLATION:TAB_CHANGE:" counts (username.getD "")

/-- `window_change_violation` (lines 449–460). -/
def window_change_violation (username : Option String) (counts : Counts) : Resp × Counts :=
  if isFalsy username then (Resp.clientError "ERROR" 400, counts)
  else violationResponse "VIOLATION:WINDOW_CHANGE:" counts (username.getD "")

/-- Ledger state after `n` successive `tab-change-violation` calls for
user `u` starting from `counts`. -/
def iterTab (u : String) (counts : Counts) : Nat → Counts
  | 0 => counts
  | n + 1 => (tab_change_violation (some u) (iterTab u counts n)).2

/-- Ledger state after `n` successive `capture` calls with the same
environment starting from `counts`. -/
def iterCapture (env : CaptureEnv) (counts : Counts) : Nat → Counts
  | 0 => counts
  | n + 1 => (capture env (iterCapture env counts n)).2

/-  Concrete inputs used to instantiate the theorems below.  -/

/-- `compare_faces` inputs where neither frame could be read
(`cv2.imread` returned `None` for both). -/
def cmpUnreadable : CompareEnv :=
  { ref_img := none, curr_img := none, max_val := 0, sqrtq := fun _ => 0,
    ref_faces := [], curr_faces := [] }

/-- `compare_faces` inputs where both frames load and template matching
scores 1.0 (identical frames), so Tier 1 declares a match. -/
def cmpMatch : CompareEnv :=
  { ref_img := some (), curr_img := some (), max_val := 1, sqrtq := fun _ => 0,
    ref_faces := [], curr_faces := [] }

/-- Heuristic-stage input for a frame with no contours and no face. -/
def heurEmpty : HeurInput :=
  { contours := [], faces := [], w := 0, h := 0 }

/-- A well-formed `capture` request for user `alice` with a matching
reference, exactly one face, no prohibited item, no gaze problem
(FaceMesh finds no face in the gaze stage) and no noise flag: a frame
with no violation of any kind. -/
def envClean : CaptureEnv :=
  { img_data := some "h,b", username := some "alice",
    noise_violation := some "false", reference_face_path := some "ref.png",
    meshMulti := Except.ok [[]], cmp := cmpMatch, modelLoaded := true,
    yolo := Except.ok [], heur := Except.ok heurEmpty,
    meshGaze := Except.ok [] }

/-- Like `envClean` but YOLO reports a `cell phone` at confidence 0.8. -/
def envPhone : CaptureEnv :=
  { envClean with yolo := Except.ok [{ label := "cell phone", conf := 8/10 }] }

/-- Like `envClean` but the reference frame does not match
(`cv2.imread` cannot read either path, so `compare_faces` is `False`). -/
def envMismatch : CaptureEnv :=
  { envClean with cmp := cmpUnreadable }

/-- Like `envClean` but with no `reference_face` field (enrollment
call) and two faces in the frame. -/
def envNoRefTwoFaces : CaptureEnv :=
  { envClean with reference_face_path := none, meshMulti := Except.ok [[], []] }

/-- Like `envClean` but the image payload has no comma, so
`save_image_from_base64` returns `None`. -/
def envMalformed : CaptureEnv :=
  { envClean with img_data := some "nocomma" }

/-- The ledger of a user whose count has already reached the threshold. -/
def countsAtMax : Counts := fun _ => MAX_VIOLATIONS

/-- A `validate-face` request whose `reference_face` field names a path
that does not exist on disk, with one face in the frame. -/
def envValidateGhost : ValidateEnv :=
  { img_data := some "h,b", reference_face_path := some "ghost.png",
    path_exists := fun _ => false, meshFace := Except.ok [[]],
    cmp := cmpMatch }

/-- A synthetic landmark configuration: eye corners 33/362 at x = 0,
eye corners 133/263 at x = 1, both iris centres (473/468) at
x = `irisX`, everything else at the origin — so each eye's gaze ratio,
and hence the two-eye average, is exactly `irisX`. -/
def gazeLmOf (irisX : ℚ) : List Landmark :=
  (List.range 474).map (fun i =>
    if i = 133 ∨ i = 263 then { x := 1, y := 0 }
    else if i = 473 ∨ i = 468 then { x := irisX, y := 0 }
    else { x := 0, y := 0 })

/-!  Helper lemmas shared by several of the claim theorems below.  -/

/-- Identical frames: template score 1.0 clears the 0.7 bar, so Tier 1
declares a match. -/
theorem compare_faces_cmpMatch : compare_faces cmpMatch = true := by
  simp only [compare_faces, cmpMatch]
  norm_num

/-- Unreadable frames: `compare_faces` returns `False` before any
comparison work. -/
theorem compare_faces_cmpUnreadable : compare_faces cmpUnreadable = false := rfl

/-- The ledger pattern always stores the bumped counter. -/
theorem violationResponse_snd (t : String) (counts : Counts) (u : String) :
    (violationResponse t counts u).2 = bump counts u := by
  simp only [violationResponse]
  split <;> rfl

/-- Once the stored count is at the threshold, the ledger pattern
answers `MAX_VIOLATIONS`. -/
theorem violationResponse_fst_max (t : String) (counts : Counts) (u : String)
    (h : MAX_VIOLATIONS ≤ counts u) :
    (violationResponse t counts u).1 = Resp.ok "MAX_VIOLATIONS" := by
  simp only [violationResponse, bump, if_pos]
  rw [if_pos (le_trans h (Nat.le_succ _))]

/-- Below the threshold, the ledger pattern answers the violation
signal carrying the new count. -/
theorem violationResponse_fst_lt (t : String) (counts : Counts) (u : String)
    (h : counts u + 1 < MAX_VIOLATIONS) :
    (violationResponse t counts u).1 = Resp.ok (t ++ toString (counts u + 1)) := by
  simp only [violationResponse, bump, if_pos]
  rw [if_neg (by omega)]

/-- A nonempty username passes the `if not username` guard of
`tab_change_violation`. -/
theorem tab_change_nonempty (u : String) (counts : Counts) (hne : u ≠ "") :
    tab_change_violation (some u) counts =
      violationResponse "VIOLATION:TAB_CHANGE:" counts u := by
  simp [tab_change_violation, isFalsy, hne]

/-- A nonempty username passes the `if not username` guard of
`fullscreen_violation`. -/
theorem fullscreen_nonempty (u : String) (counts : Counts) (hne : u ≠ "") :
    fullscreen_violation (some u) counts =
      violationResponse "VIOLATION:FULLSCREEN:" counts u := by
  simp [fullscreen_violation, isFalsy, hne]

/-- A nonempty username passes the `if not username` guard of
`window_change_violation`. -/
theorem window_change_nonempty (u : String) (counts : Counts) (hne : u ≠ "") :
    window_change_violation (some u) counts =
      violationResponse "VIOLATION:WINDOW_CHANGE:" counts u := by
  simp [window_change_violation, isFalsy, hne]

/-- Index lookup in the synthetic gaze configuration. -/
theorem gazeLmOf_get (irisX : ℚ) (i : Nat) (h : i < 474) :
    (gazeLmOf irisX)[i]? = some (
      if i = 133 ∨ i = 263 then { x := 1, y := 0 }
      else if i = 473 ∨ i = 468 then { x := irisX, y := 0 }
      else ({ x := 0, y := 0 } : Landmark)) := by
  simp [gazeLmOf, List.getElem?_map, List.getElem?_range h]

/-- The synthetic configuration realizes any prescribed average gaze
ratio exactly. -/
theorem avgGaze_gazeLmOf (irisX : ℚ) : avgGaze (gazeLmOf irisX) = irisX := by
  have h33 := gazeLmOf_get irisX 33 (by omega)
  have h133 := gazeLmOf_get irisX 133 (by omega)
  have h473 := gazeLmOf_get irisX 473 (by omega)
  have h362 := gazeLmOf_get irisX 362 (by omega)
  have h263 := gazeLmOf_get irisX 263 (by omega)
  have h468 := gazeLmOf_get irisX 468 (by omega)
  norm_num at h33 h133 h473 h362 h263 h468
  simp only [avgGaze, get_gaze_ratio, LEFT_IRIS_CENTER, RIGHT_IRIS_CENTER,
    h33, h133, h473, h362, h263, h468]
  norm_num

/-- A fully clean frame (matching reference, one face, nothing detected,
no noise flag) yields `OK` and an untouched ledger, whatever the ledger
holds. -/
theorem capture_envClean (counts : Counts) :
    capture envClean counts = (Resp.ok "OK", counts) := by
  have h1 : (isFalsy envClean.img_data || isFalsy envClean.username) = false := by decide
  have h2 : save_image_from_base64 (envClean.img_data.getD "") = some "h,b" := by decide
  simp only [capture, h1, Bool.false_eq_true, if_false, h2]
  simp only [envClean, detect_multiple_faces, detect_prohibited_items, findProhibited,
    detect_airpods_headsets, heurEmpty, detect_gaze, compare_faces_cmpMatch]
  norm_num
  exact fun hx => absurd hx (by decide)

/-- Claim C2 (code bug): a `capture` call whose image payload does not
split into exactly two comma-separated parts does not return the 400
`ERROR` the spec promises — `save_image_from_base64` returns `None`,
the caller never checks it, and the unguarded `cv2.imread(None)` raises,
so the call surfaces as a transport-level failure; the ledger is
unchanged and no detector stage is reached. -/
theorem spec_C2_bug :
    capture envMalformed zeroCounts
        = (Resp.serverError "TypeError: cv2.imread(None)", zeroCounts) ∧
    (Resp.serverError "TypeError: cv2.imread(None)" : Resp)
        ≠ Resp.clientError "ERROR" 400 := by
  constructor
  · have h1 : (isFalsy envMalformed.img_data || isFalsy envMalformed.username) = false := by
      decide
    have h2 : save_image_from_base64 (envMalformed.img_data.getD "") = none := by decide
    simp only [capture, h1, Bool.false_eq_true, if_false, h2]
  · decide

/-- Claim C3 (confirmed): with a reference supplied, a single-face
frame and a non-matching reference, every `capture` call answers
`FACE_MISMATCH` and returns the ledger untouched — for any number of
repeated calls the counter map is exactly the initial one.  The identity
check runs after the multi-face check (hypothesis `hm` is needed to
reach it) and before every counter-incrementing stage. -/
theorem spec_C3 (env : CaptureEnv) (counts : Counts) (r : String)
    (himg : isFalsy env.img_data = false)
    (huser : isFalsy env.username = false)
    (hsplit : (pySplitComma (env.img_data.getD "")).length = 2)
    (href : env.reference_face_path = some r)
    (hm : detect_multiple_faces env.meshMulti = Except.ok false)
    (hcmp : compare_faces env.cmp = false) :
    capture env counts = (Resp.ok "FACE_MISMATCH", counts) ∧
    ∀ n, iterCapture env counts n = counts := by
  have hsave : save_image_from_base64 (env.img_data.getD "")
      = some (env.img_data.getD "") := by
    simp [save_image_from_base64, hsplit]
  have key : ∀ c : Counts, capture env c = (Resp.ok "FACE_MISMATCH", c) := by
    intro c
    simp only [capture, himg, huser, Bool.or_self, Bool.false_eq_true, if_false,
      hsave, href, hm, hcmp, if_pos]
  refine ⟨key counts, ?_⟩
  intro n
  induction n with
  | zero => rfl
  | succ k ih => simp [iterCapture, ih, key]

/-- Claim C9 (confirmed): each standalone violation endpoint bumps the
shared per-user counter by exactly one (so counts are non-decreasing for
every user), and for a fresh user `bob` the 9th tab-change call answers
`VIOLATION:TAB_CHANGE:9` while the 10th answers `MAX_VIOLATIONS`. -/
theorem spec_C9 (counts : Counts) (u v : String) (hne : u ≠ "") :
    (tab_change_violation (some u) counts).2 u = counts u + 1 ∧
    (fullscreen_violation (some u) counts).2 u = counts u + 1 ∧
    (window_change_violation (some u) counts).2 u = counts u + 1 ∧
    counts v ≤ (tab_change_violation (some u) counts).2 v ∧
    (tab_change_violation (some "bob") (iterTab "bob" zeroCounts 8)).1
        = Resp.ok "VIOLATION:TAB_CHANGE:9" ∧
    (tab_change_violation (some "bob") (iterTab "bob" zeroCounts 9)).1
        = Resp.ok "MAX_VIOLATIONS" := by
  refine ⟨?_, ?_, ?_, ?_, by decide, by decide⟩
  · rw [tab_change_nonempty u counts hne, violationResponse_snd]
    simp [bump]
  · rw [fullscreen_nonempty u counts hne, violationResponse_snd]
    simp [bump]
  · rw [window_change_nonempty u counts hne, violationResponse_snd]
    simp [bump]
  · rw [tab_change_nonempty u counts hne, violationResponse_snd]
    simp only [bump]
    by_cases hv : v = u
    · simp [hv]
    · simp [hv]

/-- Claim C10 (confirmed): a `validate-face` call whose `reference_face`
field is empty or names a path that does not exist skips identity
comparison entirely: with a detectable face it answers `FACE_DETECTED`
(not `FACE_MATCH`/`NO_FACE_MATCH`) and the ledger is returned
untouched. -/
theorem spec_C10 (env : ValidateEnv) (counts : Counts) (r : String)
    (himg : isFalsy env.img_data = false)
    (hsplit : (pySplitComma (env.img_data.getD "")).length = 2)
    (hface : detect_face env.meshFace = Except.ok true)
    (href : env.reference_face_path = some r)
    (hbad : r = "" ∨ env.path_exists r = false) :
    validate_face env counts = (Resp.ok "FACE_DETECTED", counts) := by
  have hsave : save_image_from_base64 (env.img_data.getD "")
      = some (env.img_data.getD "") := by
    simp [save_image_from_base64, hsplit]
  have hcond : ¬ (r ≠ "" ∧ env.path_exists r = true) := by
    rcases hbad with h | h
    · simp [h]
    · simp [h]
  simp only [validate_face, himg, Bool.false_eq_true, if_false, hsave, hface, href]
  rw [if_neg hcond]

/-- Claim C1 (counterexample): a user already at the threshold
(count 10) who submits a violation-free frame through `capture` gets
`OK`, not the terminal `MAX_VIOLATIONS` — the threshold is only
consulted inside the violation branches. -/
theorem spec_C1_counterexample :
    countsAtMax "alice" = MAX_VIOLATIONS ∧
    (capture envClean countsAtMax).1 = Resp.ok "OK" ∧
    (Resp.ok "OK" : Resp) ≠ Resp.ok "MAX_VIOLATIONS" := by
  refine ⟨rfl, ?_, by decide⟩
  rw [capture_envClean]

/-- Claim C1 (amended): once a user's count is at the threshold, no
evaluation ever yields a `VIOLATION:...:<count>` signal again — a
`capture` call can only answer `MULTIPLE_FACES`, `OK`, `FACE_MISMATCH`
or `MAX_VIOLATIONS`, and every standalone violation endpoint answers
`MAX_VIOLATIONS` — but a `capture` whose frame carries no countable
violation still answers `OK` rather than the terminal signal. -/
theorem spec_C1_amended (env : CaptureEnv) (counts : Counts) (u : String)
    (hu : env.username = some u) (hne : u ≠ "")
    (hmax : MAX_VIOLATIONS ≤ counts u) :
    (∀ b, (capture env counts).1 = Resp.ok b →
        b ∈ (["MULTIPLE_FACES", "OK", "FACE_MISMATCH", "MAX_VIOLATIONS"] : List String)) ∧
    (tab_change_violation (some u) counts).1 = Resp.ok "MAX_VIOLATIONS" ∧
    (fullscreen_violation (some u) counts).1 = Resp.ok "MAX_VIOLATIONS" ∧
    (window_change_violation (some u) counts).1 = Resp.ok "MAX_VIOLATIONS" := by
  refine ⟨?_, ?_, ?_, ?_⟩
  · intro b hb
    unfold capture at hb
    rw [hu] at hb
    simp only [Option.getD_some] at hb
    repeat' split at hb
    all_goals try rw [violationResponse_fst_max _ counts u hmax] at hb
    all_goals simp at hb
    all_goals subst hb
    all_goals decide
  · rw [tab_change_nonempty u counts hne, violationResponse_fst_max _ counts u hmax]
  · rw [fullscreen_nonempty u counts hne, violationResponse_fst_max _ counts u hmax]
  · rw [window_change_nonempty u counts hne, violationResponse_fst_max _ counts u hmax]

/-- Any missing landmark (out-of-range index) makes `get_gaze_ratio`
fall back to the centred ratio 0.5. -/
theorem get_gaze_ratio_missing (lms : List Landmark) (i0 i1 ir : Nat)
    (h : lms[i0]? = none ∨ lms[i1]? = none ∨ lms[ir]? = none) :
    get_gaze_ratio lms i0 i1 ir = 1/2 := by
  rcases h0 : lms[i0]? with _ | a
  · simp [get_gaze_ratio, h0]
  · rcases h1 : lms[i1]? with _ | b
    · simp [get_gaze_ratio, h0, h1]
    · rcases h2 : lms[ir]? with _ | c
      · simp [get_gaze_ratio, h0, h1, h2]
      · rcases h with h | h | h <;> simp_all

/-- An average gaze ratio inside the closed band `[0.35, 0.65]`
(endpoints included) is classified as OK: the source compares with
strict `<` and `>`. -/
theorem detect_gaze_inband (lms : List Landmark) (rest : List (List Landmark))
    (h1 : 35/100 ≤ avgGaze lms) (h2 : avgGaze lms ≤ 65/100) :
    detect_gaze (Except.ok (lms :: rest)) = Except.ok true := by
  simp only [detect_gaze, HORIZONTAL_THRESHOLD]
  rw [if_neg]
  push_neg
  exact ⟨h1, by linarith⟩

/-- Claim C4 (counterexample): a landmark configuration whose two-eye
average gaze ratio is exactly 0.35 is classified as NOT violating
(`detect_gaze` answers `True`): the comparison is the strict
`avg < 0.35 or avg > 0.65`, so the claimed violation at the boundary
fails. -/
theorem spec_C4_counterexample :
    avgGaze (gazeLmOf (35/100)) = 35/100 ∧
    detect_gaze (Except.ok [gazeLmOf (35/100)]) = Except.ok true ∧
    (Except.ok true : Except String Bool) ≠ Except.ok false := by
  refine ⟨avgGaze_gazeLmOf _, ?_, fun h => nomatch h⟩
  simp only [detect_gaze, avgGaze_gazeLmOf, HORIZONTAL_THRESHOLD]
  norm_num

/-- Claim C4 (amended): a configuration averaging exactly 0.35 or 0.65
is classified as non-violating (the violation test is strict); any
average in the closed band `[0.35, 0.65]` — in particular the centred
0.5 — is non-violating; and missing-landmark input defaults the
affected eye's ratio to 0.5. -/
theorem spec_C4_amended (lms lmz : List Landmark) (rest : List (List Landmark))
    (i0 i1 ir : Nat)
    (hlo : 35/100 ≤ avgGaze lms) (hhi : avgGaze lms ≤ 65/100)
    (hmiss : lmz[i0]? = none ∨ lmz[i1]? = none ∨ lmz[ir]? = none) :
    detect_gaze (Except.ok (lms :: rest)) = Except.ok true ∧
    get_gaze_ratio lmz i0 i1 ir = 1/2 ∧
    avgGaze (gazeLmOf (35/100)) = 35/100 ∧
    detect_gaze (Except.ok [gazeLmOf (35/100)]) = Except.ok true ∧
    avgGaze (gazeLmOf (65/100)) = 65/100 ∧
    detect_gaze (Except.ok [gazeLmOf (65/100)]) = Except.ok true := by
  refine ⟨detect_gaze_inband lms rest hlo hhi, get_gaze_ratio_missing lmz i0 i1 ir hmiss,
    avgGaze_gazeLmOf _, ?_, avgGaze_gazeLmOf _, ?_⟩
  · exact detect_gaze_inband _ _ (by rw [avgGaze_gazeLmOf]) (by rw [avgGaze_gazeLmOf]; norm_num)
  · exact detect_gaze_inband _ _ (by rw [avgGaze_gazeLmOf]; norm_num) (by rw [avgGaze_gazeLmOf])

/-- Claim C5 (counterexample): an exception from the FaceMesh detector
inside the gaze check is NOT caught locally — `detect_gaze` propagates
it to the caller instead of treating it as "no detection". -/
theorem spec_C5_counterexample :
    detect_gaze (Except.error "mediapipe crash") = Except.error "mediapipe crash" ∧
    detect_gaze (Except.error "mediapipe crash") ≠ Except.ok true := by
  exact ⟨rfl, fun h => nomatch h⟩

/-- Claim C5 (amended): the fail-open exception handling covers only the
prohibited-item check (YOLO stage and airpods/headset heuristic, both
answering "nothing detected" on a detector exception); the gaze and
multi-face checks propagate detector exceptions to the caller; and
identity comparison is fail-closed — an unreadable reference or current
frame yields no-match. -/
theorem spec_C5_amended (e : String) (ml : Bool) (heurArg : Except String HeurInput)
    (cmp : CompareEnv) (hcmp : cmp.ref_img = none ∨ cmp.curr_img = none) :
    detect_prohibited_items ml (Except.error e) heurArg = none ∧
    detect_airpods_headsets (Except.error e) = none ∧
    detect_gaze (Except.error e) = Except.error e ∧
    detect_multiple_faces (Except.error e) = Except.error e ∧
    compare_faces cmp = false := by
  refine ⟨?_, rfl, rfl, rfl, ?_⟩
  · cases ml <;> rfl
  · rcases hcmp with h | h
    · simp [compare_faces, h]
    · rcases hr : cmp.ref_img with _ | x <;> simp [compare_faces, h, hr]

/-- Claim C7 (confirmed): the gaze check reports a violation iff the
two-eye average ratio lies outside the closed interval `[0.35, 0.65]`
(strictly below 0.35 or strictly above 0.65); a frame with no detected
face is never a violation; and a zero eye-width denominator defaults
that eye's ratio to the centred 0.5. -/
theorem spec_C7 (lms lmw : List Landmark) (rest : List (List Landmark))
    (i0 i1 ir : Nat) (lc rc irp : Landmark)
    (h0 : lmw[i0]? = some lc) (h1 : lmw[i1]? = some rc) (h2 : lmw[ir]? = some irp)
    (hw : rc.x - lc.x = 0) :
    (detect_gaze (Except.ok (lms :: rest)) = Except.ok false ↔
        (avgGaze lms < 35/100 ∨ 65/100 < avgGaze lms)) ∧
    detect_gaze (Except.ok ([] : List (List Landmark))) = Except.ok true ∧
    get_gaze_ratio lmw i0 i1 ir = 1/2 := by
  refine ⟨?_, rfl, ?_⟩
  · have he : (1:ℚ) - 35/100 = 65/100 := by norm_num
    simp only [detect_gaze, HORIZONTAL_THRESHOLD, he]
    split_ifs with hc
    · exact iff_of_true rfl hc
    · exact iff_of_false (fun h => nomatch h) hc
  · simp [get_gaze_ratio, h0, h1, h2, hw]

/-- Claim C6 (confirmed): with no `reference_face` field supplied, only
the multi-face check runs — `MULTIPLE_FACES` on violation, `OK`
otherwise, ledger untouched either way; with a reference supplied the
checks run in strict order (multi-face, identity, prohibited item,
gaze, client noise flag), short-circuiting on the first non-OK
result, and only the last three stages go through the ledger. -/
theorem spec_C6 (env : CaptureEnv) (counts : Counts)
    (himg : isFalsy env.img_data = false)
    (huser : isFalsy env.username = false)
    (hsplit : (pySplitComma (env.img_data.getD "")).length = 2) :
    (env.reference_face_path = none →
      ∀ mb, detect_multiple_faces env.meshMulti = Except.ok mb →
        capture env counts =
          ((if mb then Resp.ok "MULTIPLE_FACES" else Resp.ok "OK"), counts)) ∧
    (∀ r, env.reference_face_path = some r →
      (detect_multiple_faces env.meshMulti = Except.ok true →
        capture env counts = (Resp.ok "MULTIPLE_FACES", counts)) ∧
      (detect_multiple_faces env.meshMulti = Except.ok false →
        (compare_faces env.cmp = false →
          capture env counts = (Resp.ok "FACE_MISMATCH", counts)) ∧
        (compare_faces env.cmp = true →
          (∀ item, detect_prohibited_items env.modelLoaded env.yolo env.heur = some item →
            capture env counts =
              violationResponse ("VIOLATION:PROHIBITED_ITEM:" ++ item ++ ":")
                counts (env.username.getD "")) ∧
          (detect_prohibited_items env.modelLoaded env.yolo env.heur = none →
            (detect_gaze env.meshGaze = Except.ok false →
              capture env counts =
                violationResponse "VIOLATION:GAZE_VIOLATION:" counts (env.username.getD "")) ∧
            (detect_gaze env.meshGaze = Except.ok true →
              (env.noise_violation = some "true" →
                capture env counts =
                  violationResponse "VIOLATION:NOISE_VIOLATION:" counts (env.username.getD "")) ∧
              (env.noise_violation ≠ some "true" →
                capture env counts = (Resp.ok "OK", counts))))))) := by
  have hsave : save_image_from_base64 (env.img_data.getD "")
      = some (env.img_data.getD "") := by
    simp [save_image_from_base64, hsplit]
  refine ⟨?_, ?_⟩
  · intro hrefn mb hm
    simp only [capture, himg, huser, Bool.or_self, Bool.false_eq_true, if_false,
      hsave, hrefn, hm]
    cases mb <;> simp
  · intro r href
    refine ⟨?_, ?_⟩
    · intro hm
      simp only [capture, himg, huser, Bool.or_self, Bool.false_eq_true, if_false,
        hsave, href, hm]
    · intro hm
      refine ⟨?_, ?_⟩
      · intro hc
        simp only [capture, himg, huser, Bool.or_self, Bool.false_eq_true, if_false,
          hsave, href, hm, hc, if_pos]
      · intro hc
        refine ⟨?_, ?_⟩
        · intro item hp
          simp only [capture, himg, huser, Bool.or_self, Bool.false_eq_true, if_false,
            hsave, href, hm, hc, Bool.true_eq_false, hp]
        · intro hp
          refine ⟨?_, ?_⟩
          · intro hg
            simp only [capture, himg, huser, Bool.or_self, Bool.false_eq_true, if_false,
              hsave, href, hm, hc, Bool.true_eq_false, hp, hg]
          · intro hg
            refine ⟨?_, ?_⟩
            · intro hn
              simp only [capture, himg, huser, Bool.or_self, Bool.false_eq_true, if_false,
                hsave, href, hm, hc, Bool.true_eq_false, hp, hg, hn, if_pos]
            · intro hn
              simp only [capture, himg, huser, Bool.or_self, Bool.false_eq_true, if_false,
                hsave, href, hm, hc, Bool.true_eq_false, hp, hg]
              rw [if_neg hn]

/-- Claim C8 (counterexample): a `cell phone` detection at confidence
exactly 0.5 — at the claimed "at or above the floor" boundary — is NOT
reported: the source demands `conf > 0.5` strictly, so the check falls
through to the (empty) heuristic and reports nothing. -/
theorem spec_C8_counterexample :
    detect_prohibited_items true
        (Except.ok [{ label := "cell phone", conf := 1/2 }]) (Except.ok heurEmpty) = none ∧
    (none : Option String) ≠ some "MOBILE_PHONE" := by
  constructor
  · have h : PROHIBITED_ITEMS (pyLower "cell phone") = some "MOBILE_PHONE" := by decide
    simp only [detect_prohibited_items, findProhibited, h, detect_airpods_headsets, heurEmpty]
    norm_num
  · exact fun h => nomatch h

/-- Claim C8 (amended): the prohibited-item check considers only
detections with confidence strictly above 0.5, matches labels
case-insensitively against the fixed table, returns the category of
the first match in the detector's native order, and a `cell phone` at
confidence 0.8 for a fresh user yields
`VIOLATION:PROHIBITED_ITEM:MOBILE_PHONE:1`. -/
theorem spec_C8_amended (label : String) (conf : ℚ) (cat : String) (rest : List Detection) :
    (conf ≤ 1/2 →
      findProhibited ({ label := label, conf := conf } :: rest) = findProhibited rest) ∧
    (PROHIBITED_ITEMS (pyLower label) = some cat → 1/2 < conf →
      findProhibited ({ label := label, conf := conf } :: rest) = some cat) ∧
    (PROHIBITED_ITEMS (pyLower label) = none →
      findProhibited ({ label := label, conf := conf } :: rest) = findProhibited rest) ∧
    capture envPhone zeroCounts
        = (Resp.ok "VIOLATION:PROHIBITED_ITEM:MOBILE_PHONE:1", bump zeroCounts "alice") := by
  refine ⟨?_, ?_, ?_, ?_⟩
  · intro hle
    rcases hP : PROHIBITED_ITEMS (pyLower label) with _ | c
    · simp [findProhibited, hP]
    · simp only [findProhibited, hP]
      rw [if_neg (by simpa using not_lt.2 hle)]
  · intro hP hc
    simp only [findProhibited, hP]
    rw [if_pos hc]
  · intro hP
    simp [findProhibited, hP]
  · have hfp : findProhibited [{ label := "cell phone", conf := (8:ℚ)/10 }]
        = some "MOBILE_PHONE" := by
      have h : PROHIBITED_ITEMS (pyLower "cell phone") = some "MOBILE_PHONE" := by decide
      simp only [findProhibited, h]
      norm_num
    have h1 : (isFalsy envPhone.img_data || isFalsy envPhone.username) = false := by decide
    have h2 : save_image_from_base64 (envPhone.img_data.getD "") = some "h,b" := by decide
    simp only [capture, h1, Bool.false_eq_true, if_false, h2]
    simp only [envPhone, envClean, detect_multiple_faces, detect_prohibited_items,
      hfp, compare_faces_cmpMatch]
    simp only [violationResponse, bump, zeroCounts, MAX_VIOLATIONS]
    norm_num
    rfl

/-- Witness for C1: the amended theorem instantiated at the clean-frame
environment and a ledger already at the threshold. -/
theorem spec_C1_witness :
    ("OK" ∈ (["MULTIPLE_FACES", "OK", "FACE_MISMATCH", "MAX_VIOLATIONS"] : List String)) ∧
    (tab_change_violation (some "alice") countsAtMax).1 = Resp.ok "MAX_VIOLATIONS" := by
  have h := spec_C1_amended envClean countsAtMax "alice" rfl (by decide) (by decide)
  exact ⟨h.1 "OK" (by rw [capture_envClean]), h.2.1⟩

/-- Witness for C3: five mismatching capture calls for `alice` leave the
ledger at zero. -/
theorem spec_C3_witness :
    capture envMismatch zeroCounts = (Resp.ok "FACE_MISMATCH", zeroCounts) ∧
    iterCapture envMismatch zeroCounts 5 = zeroCounts := by
  have h := spec_C3 envMismatch zeroCounts "ref.png" (by decide) (by decide) (by decide)
    rfl rfl rfl
  exact ⟨h.1, h.2 5⟩

/-- Witness for C4: the amended theorem instantiated at an empty
landmark list (average defaults to the centred 0.5). -/
theorem spec_C4_witness :
    detect_gaze (Except.ok (([] : List Landmark) :: [])) = Except.ok true ∧
    get_gaze_ratio [] 0 0 0 = 1/2 ∧
    detect_gaze (Except.ok [gazeLmOf (35/100)]) = Except.ok true := by
  have havg : avgGaze [] = 1/2 := by
    simp [avgGaze, get_gaze_ratio]
  have h := spec_C4_amended [] [] [] 0 0 0 (by rw [havg]; norm_num) (by rw [havg]; norm_num)
    (Or.inl (by simp))
  exact ⟨h.1, h.2.1, h.2.2.2.1⟩

/-- Witness for C5: the amended theorem instantiated at a crashing
detector and an unreadable reference frame. -/
theorem spec_C5_witness :
    detect_prohibited_items true (Except.error "crash") (Except.ok heurEmpty) = none ∧
    detect_gaze (Except.error "crash") = Except.error "crash" ∧
    compare_faces cmpUnreadable = false := by
  have h := spec_C5_amended "crash" true (Except.ok heurEmpty) cmpUnreadable (Or.inl rfl)
  exact ⟨h.1, h.2.2.1, h.2.2.2.2⟩

/-- Witness for C6: an enrollment call (no reference) with two faces in
the frame answers `MULTIPLE_FACES` and leaves the ledger untouched. -/
theorem spec_C6_witness :
    capture envNoRefTwoFaces zeroCounts
        = ((if true then Resp.ok "MULTIPLE_FACES" else Resp.ok "OK"), zeroCounts) := by
  have h := spec_C6 envNoRefTwoFaces zeroCounts (by decide) (by decide) (by decide)
  exact h.1 rfl true rfl

/-- Witness for C7: instantiated at a no-face frame and a one-landmark
configuration with coinciding eye corners (zero eye width). -/
theorem spec_C7_witness :
    (detect_gaze (Except.ok (([] : List Landmark) :: [])) = Except.ok false ↔
        (avgGaze [] < 35/100 ∨ 65/100 < avgGaze [])) ∧
    detect_gaze (Except.ok ([] : List (List Landmark))) = Except.ok true ∧
    get_gaze_ratio [{ x := 1, y := 0 }] 0 0 0 = 1/2 :=
  spec_C7 [] [{ x := 1, y := 0 }] [] 0 0 0 { x := 1, y := 0 } { x := 1, y := 0 }
    { x := 1, y := 0 } rfl rfl rfl (by simp)

/-- Witness for C8: a capitalised `Cell Phone` label above the
confidence bar matches the table case-insensitively, and the concrete
0.8-confidence scenario yields the exact violation string. -/
theorem spec_C8_witness :
    findProhibited ({ label := "Cell Phone", conf := (3:ℚ)/4 } :: []) = some "MOBILE_PHONE" ∧
    capture envPhone zeroCounts
        = (Resp.ok "VIOLATION:PROHIBITED_ITEM:MOBILE_PHONE:1", bump zeroCounts "alice") := by
  have h := spec_C8_amended "Cell Phone" ((3:ℚ)/4) "MOBILE_PHONE" []
  exact ⟨h.2.1 (by decide) (by norm_num), h.2.2.2⟩

/-- Witness for C9: the per-call increment facts instantiated for
`bob`, plus the concrete 9th/10th-call scenario. -/
theorem spec_C9_witness :
    (tab_change_violation (some "bob") zeroCounts).2 "bob" = zeroCounts "bob" + 1 ∧
    (fullscreen_violation (some "bob") zeroCounts).2 "bob" = zeroCounts "bob" + 1 ∧
    (window_change_violation (some "bob") zeroCounts).2 "bob" = zeroCounts "bob" + 1 ∧
    zeroCounts "carol" ≤ (tab_change_violation (some "bob") zeroCounts).2 "carol" ∧
    (tab_change_violation (some "bob") (iterTab "bob" zeroCounts 8)).1
        = Resp.ok "VIOLATION:TAB_CHANGE:9" ∧
    (tab_change_violation (some "bob") (iterTab "bob" zeroCounts 9)).1
        = Resp.ok "MAX_VIOLATIONS" :=
  spec_C9 zeroCounts "bob" "carol" (by decide)

/-- Witness for C10: a `reference_face` naming a nonexistent path with a
detectable face yields `FACE_DETECTED` and an untouched ledger. -/
theorem spec_C10_witness :
    validate_face envValidateGhost zeroCounts = (Resp.ok "FACE_DETECTED", zeroCounts) :=
  spec_C10 envValidateGhost zeroCounts "ghost.png" (by decide) (by decide) rfl rfl (Or.inr rfl)
